import Mathlib

set_option maxHeartbeats 1000000

/-!
Shallow embedding of the process supervision and dynamic-reconfiguration
core of `src/src/bin/highway.rs` (the `highway` binary), together with
theorems settling the behavioural claims about it.

The embedding covers:
- the gateway restart loop `spawn_highway_gw_listener` (lines 155-217),
  modelled as an executable step function over the loop's select states;
- the completion phase of `run_highway` (lines 472-484), with the
  `TaskGroup` supervisor (which lives outside the sources at hand)
  modelled from the specification;
- the `SetIdentity` branch of `run_cmd_admin` (lines 121-146);
- the entry dispatch `main2` (lines 97-110).
Effectful collaborators (RPC clients, config loading, tracing setup) are
abstracted as the results they produce.
-/

namespace Highway

/-- A signing identity value, as observed by the restart loop. The source
type `PubkeySigner` exposes a `pubkey()` accessor; public keys are
abstracted as natural numbers. -/
structure PubkeySigner where
  pubkey : Nat
deriving DecidableEq, Repr

/-- The `warn!` lines emitted inside `spawn_highway_gw_listener`:
the two rejection warnings of lines 173-174 and the natural-exit log of
line 200. -/
inductive GwLog
  | warnUnexpectedIdentity (actual : Nat)
  | warnWaitingForIdentity (actual : Nat)
  | warnListenerStopped
deriving DecidableEq, Repr

/-- States of the gateway restart loop. `running bound chanId` is an
iteration in which `GrpcServer::run_with` was started bound to identity
`bound` and the oneshot stop channel numbered `chanId`; `waiting` is an
iteration parked on `future::pending()` after the guard rejected the
current identity; `terminated` is the state after the function returned
at line 206. The transient `Idle` evaluation is `gwEnter` below. -/
inductive GwState
  | running (bound : PubkeySigner) (chanId : Nat)
  | waiting
  | terminated
deriving DecidableEq, Repr

/-- Events a loop iteration can select on (lines 195-215): the observed
identity changing to `v` (waking both the race inside `until_value_change`
and the `identity_observer2.observe()` branch), the protected work
resolving on its own while the then-current identity is `cur`, and the
outer `stop_rx` resolving. -/
inductive GwEvent
  | valueChange (v : PubkeySigner)
  | workExit (cur : PubkeySigner)
  | externalStop
deriving DecidableEq, Repr

/-- The identity guard of lines 170-171 (re-checked at lines 209-210):
with a configured `expected_identity` the observed signer passes exactly
when its pubkey equals it; with no expected identity configured every
signer passes. -/
def guardPasses (expected : Option Nat) (v : PubkeySigner) : Bool :=
  match expected with
  | some e => v.pubkey == e
  | none => true

/-- One pass through the top of the loop body (lines 163-194): the factory
handed to `until_value_change` receives the current identity; if the guard
rejects it the iteration parks on `future::pending()` after emitting the
two warnings of lines 173-174, otherwise (including when no expected
identity is configured, lines 185-193) it starts `GrpcServer::run_with`
bound to the current identity and to the stop channel created this
iteration at line 168, numbered `fresh`. -/
def gwEnter (expected : Option Nat) (cur : PubkeySigner) (fresh : Nat) :
    GwState × List GwLog :=
  if guardPasses expected cur then
    (GwState.running cur fresh, [])
  else
    (GwState.waiting,
      [GwLog.warnUnexpectedIdentity cur.pubkey,
       GwLog.warnWaitingForIdentity cur.pubkey])

/-- Observable outcome of one `tokio::select!` resolution: the state the
loop is in next, the next unused stop-channel number, the logs emitted,
whether an in-flight protected work future was dropped before completing,
whether the iteration's stop channel was closed (explicitly dropped or
dropped by rebinding at the next iteration), and whether the function
returned `Ok(())`. -/
structure GwStepOut where
  next : GwState
  newFresh : Nat
  logs : List GwLog
  workCancelled : Bool
  stopChanClosed : Bool
  returnedOk : Bool
deriving DecidableEq, Repr

/-- One resolution of the `tokio::select!` of lines 195-215.
From `terminated` the function has returned, so nothing further happens.
`externalStop` drops `stop_tx2` and returns `Ok(())` (lines 204-207).
A natural work exit logs `highway-gateway listener stopped` (Either::Right,
lines 199-202) and the loop re-enters on the then-current identity.
A value change ends the iteration (either `until_value_change` resolves
Either::Left, or the `identity_observer2.observe()` branch fires, which
drops `fut`; a guard-failing change also drops `stop_tx2` explicitly at
line 211); either way any running work is dropped and the loop re-enters
on the new identity. In `waiting` the pending placeholder never resolves,
so a work exit cannot occur there. -/
def gwStep (expected : Option Nat) (s : GwState) (fresh : Nat) (e : GwEvent) :
    GwStepOut :=
  match s, e with
  | GwState.terminated, _ =>
      ⟨GwState.terminated, fresh, [], false, false, false⟩
  | GwState.running _ _, GwEvent.externalStop =>
      ⟨GwState.terminated, fresh, [], true, true, true⟩
  | GwState.waiting, GwEvent.externalStop =>
      ⟨GwState.terminated, fresh, [], false, true, true⟩
  | GwState.running _ _, GwEvent.workExit cur =>
      ⟨(gwEnter expected cur fresh).1, fresh + 1,
        GwLog.warnListenerStopped :: (gwEnter expected cur fresh).2,
        false, true, false⟩
  | GwState.waiting, GwEvent.workExit _ =>
      ⟨GwState.waiting, fresh, [], false, false, false⟩
  | GwState.running _ _, GwEvent.valueChange v =>
      ⟨(gwEnter expected v fresh).1, fresh + 1, (gwEnter expected v fresh).2,
        true, true, false⟩
  | GwState.waiting, GwEvent.valueChange v =>
      ⟨(gwEnter expected v fresh).1, fresh + 1, (gwEnter expected v fresh).2,
        false, true, false⟩

/-- First iteration of the loop: enter on the initial observed identity
with stop channel number 0. -/
def gwInit (expected : Option Nat) (initial : PubkeySigner) :
    GwState × Nat × List GwLog :=
  ((gwEnter expected initial 0).1, 1, (gwEnter expected initial 0).2)

/-- Run the loop over a list of select events, tracking the state and the
stop-channel counter. -/
def gwRun (expected : Option Nat) (s : GwState) (fresh : Nat) :
    List GwEvent → GwState × Nat
  | [] => (s, fresh)
  | e :: es =>
      gwRun expected (gwStep expected s fresh e).next
        (gwStep expected s fresh e).newFresh es

/-- Guard invariant: whenever the loop is running the protected work, the
identity it is bound to passes the guard. -/
def gwGuardOk (expected : Option Nat) : GwState → Bool
  | GwState.running v _ => guardPasses expected v
  | _ => true

/-- Channel-freshness invariant: a running state's stop-channel number is
below the counter of channels created so far, so a fresh channel is never
a reuse. -/
def gwChanOk : GwState → Nat → Bool
  | GwState.running _ ch, fresh => decide (ch < fresh)
  | _, _ => true

/-- Mode of a supervised task: `spawn_cancelable` registers work with no
stop channel, `spawn_with_shutdown` registers work built from a stop
receiver. -/
inductive TaskMode
  | cancelable
  | cooperative
deriving DecidableEq, Repr

/-- Result a supervised task eventually completes with. -/
abbrev TaskResult := Except String Unit

deriving instance DecidableEq for Except

/-- A supervised task: diagnostic name, registration mode, and the result
its future eventually resolves to. -/
structure STask where
  name : String
  mode : TaskMode
  result : TaskResult
deriving DecidableEq, Repr

/-- Modelled from the spec: `TaskGroup::wait_one` lives in the library
crate `solana_highway::task_group`, whose source is not among the files at
hand; only its caller `run_highway` is. Per the spec it suspends until any
registered task (Cancelable or Cooperative) completes with success or
failure, then sends the stop signal to every remaining Cooperative task,
marks remaining Cancelable tasks for abandonment, awaits them all, and
returns the triggering task's `(name, result)` plus the collected
`(name, result)` pairs of the rest; it fails only on an empty group. A run
is modelled by the completion-ordered list of the group's tasks with the
results they eventually produce; the head is the triggering task. The
third component lists the Cooperative tasks signalled to stop. -/
def wait_one (tasks : List STask) :
    Option ((String × TaskResult) × List (String × TaskResult) × List String) :=
  match tasks with
  | [] => none
  | t :: rest =>
      some ((t.name, t.result),
        rest.map (fun r => (r.name, r.result)),
        (rest.filter (fun r => r.mode == TaskMode.cooperative)).map STask.name)

/-- Observable actions of the completion phase of `run_highway`
(lines 472-484). -/
inductive RhAction
  | shutdownRpcAdmin
  | shutdownRpcSolanaLike
  | warnFirstFinished (name : String) (succeeded : Bool)
  | errorTaskShutdown (name : String) (err : String)
deriving DecidableEq, Repr

/-- Whether a supervised task finished with a failure. -/
def taskFailed (t : STask) : Bool :=
  match t.result with
  | Except.error _ => true
  | Except.ok _ => false

/-- Completion phase of `run_highway` (lines 472-484): `wait_one` yields
the first-finished task and the drained rest (`.expect("task group empty")`
aborts on an empty group, modelled as `none`); the admin and solana-like
RPC servers are shut down; the first task is logged with `warn!`; each
drained task that failed is logged with `tracing::error!`; and the
function returns `Ok(())`. -/
def run_highway_finish (tasks : List STask) :
    Option (List RhAction × Except String Unit) :=
  match wait_one tasks with
  | none => none
  | some ((first, result), rest, _stops) =>
      some (RhAction.shutdownRpcAdmin :: RhAction.shutdownRpcSolanaLike ::
        RhAction.warnFirstFinished first
          (match result with | Except.ok _ => true | Except.error _ => false) ::
        rest.filterMap (fun p =>
          match p.2 with
          | Except.ok _ => none
          | Except.error e => some (RhAction.errorTaskShutdown p.1 e)),
        Except.ok ())

/-- The `SetIdentity` branch of `run_cmd_admin` (lines 121-146), with the
admin RPC client abstracted as the results of its calls: the identity read
before the set (line 122), the set call itself (lines 124-138), and the
identity read back after it (line 140). Identities are the printed values,
abstracted as naturals. Line 141's `ensure!` fails exactly when the
identity read back equals the one read before; otherwise the new identity
is reported. -/
def run_cmd_admin_set_identity (getPrev : Except String Nat)
    (setRes : Except String Unit) (getAfter : Except String Nat) :
    Except String Nat :=
  match getPrev with
  | Except.error e => Except.error e
  | Except.ok prev =>
    match setRes with
    | Except.error e => Except.error e
    | Except.ok _ =>
      match getAfter with
      | Except.error e => Except.error e
      | Except.ok cur =>
        if cur = prev then
          Except.error ("Failed to update identity: " ++ toString cur ++
            " (new) != " ++ toString prev ++ " (old)")
        else
          Except.ok cur

/-- Top-level effects `main2` can perform after loading the config. -/
inductive MainAction
  | setupTracing
  | runAdmin
  | runHighway
deriving DecidableEq, Repr

/-- The configuration, abstracted to the one field `main2` consults
(`config.tracing.json`). -/
structure ConfigHighway where
  tracingJson : Bool
deriving DecidableEq, Repr

/-- The parsed subcommand (only `Admin` exists). -/
inductive ArgsCommands
  | admin
deriving DecidableEq, Repr

/-- The parsed command line, abstracted to the fields `main2` consults. -/
structure Args where
  check : Bool
  command : Option ArgsCommands
deriving DecidableEq, Repr

/-- The entry dispatch `main2` (lines 97-110), with its effectful
collaborators abstracted as results: config loading, `setup_tracing`, and
the `run_cmd_admin` / `run_highway` continuations. Returns the list of
performed actions and the overall result. Config loading happens first;
with `--check` the function returns `Ok(())` right after it, before
`setup_tracing` and before either continuation. -/
def main2 (args : Args) (loadResult : Except String ConfigHighway)
    (tracingResult : Except String Unit)
    (adminResult : Except String Unit) (highwayResult : Except String Unit) :
    List MainAction × Except String Unit :=
  match loadResult with
  | Except.error e => ([], Except.error e)
  | Except.ok _config =>
    if args.check then
      ([], Except.ok ())
    else
      match tracingResult with
      | Except.error e => ([MainAction.setupTracing], Except.error e)
      | Except.ok _ =>
        match args.command with
        | some ArgsCommands.admin =>
            ([MainAction.setupTracing, MainAction.runAdmin], adminResult)
        | none =>
            ([MainAction.setupTracing, MainAction.runHighway], highwayResult)

/-! ## Helper lemmas -/

/-- Entering the loop body preserves the guard invariant: a running state
produced by `gwEnter` is bound to an identity that passed the guard. -/
theorem gwEnter_guardOk (expected : Option Nat) (cur : PubkeySigner)
    (fresh : Nat) : gwGuardOk expected (gwEnter expected cur fresh).1 = true := by
  by_cases h : guardPasses expected cur = true
  · simp [gwEnter, h, gwGuardOk]
  · simp [gwEnter, h, gwGuardOk]

/-- One select resolution preserves the guard invariant. -/
theorem gwStep_guardOk (expected : Option Nat) (s : GwState) (fresh : Nat)
    (e : GwEvent) (h : gwGuardOk expected s = true) :
    gwGuardOk expected (gwStep expected s fresh e).next = true := by
  cases s with
  | terminated => cases e <;> rfl
  | waiting =>
      cases e with
      | valueChange v => exact gwEnter_guardOk expected v fresh
      | workExit cur => rfl
      | externalStop => rfl
  | running b c =>
      cases e with
      | valueChange v => exact gwEnter_guardOk expected v fresh
      | workExit cur => exact gwEnter_guardOk expected cur fresh
      | externalStop => rfl

/-- A whole run preserves the guard invariant. -/
theorem gwRun_guardOk (expected : Option Nat) (events : List GwEvent)
    (s : GwState) (fresh : Nat) (h : gwGuardOk expected s = true) :
    gwGuardOk expected (gwRun expected s fresh events).1 = true := by
  induction events generalizing s fresh with
  | nil => exact h
  | cons e es ih => exact ih _ _ (gwStep_guardOk expected s fresh e h)

/-- A running state produced by `gwEnter` is bound to the identity that was
current, carries the channel number it was given, and that identity passed
the guard. -/
theorem gwEnter_running (expected : Option Nat) (cur : PubkeySigner)
    (fresh : Nat) (v : PubkeySigner) (ch : Nat)
    (h : (gwEnter expected cur fresh).1 = GwState.running v ch) :
    v = cur ∧ ch = fresh ∧ guardPasses expected v = true := by
  by_cases hg : guardPasses expected cur = true
  · simp [gwEnter, hg] at h
    obtain ⟨h1, h2⟩ := h
    subst h1
    exact ⟨rfl, h2.symm, hg⟩
  · simp [gwEnter, hg] at h

/-- A running state produced by `gwEnter` carries the channel number it was
given. -/
theorem gwEnter_chan (expected : Option Nat) (cur : PubkeySigner)
    (fresh : Nat) (v : PubkeySigner) (ch : Nat)
    (h : (gwEnter expected cur fresh).1 = GwState.running v ch) :
    ch = fresh :=
  (gwEnter_running expected cur fresh v ch h).2.1

/-- One select resolution preserves the channel-freshness invariant. -/
theorem gwStep_chanOk (expected : Option Nat) (s : GwState) (fresh : Nat)
    (e : GwEvent) (h : gwChanOk s fresh = true) :
    gwChanOk (gwStep expected s fresh e).next
      (gwStep expected s fresh e).newFresh = true := by
  cases s with
  | terminated => cases e <;> simp [gwStep, gwChanOk]
  | waiting =>
      cases e with
      | valueChange v =>
          simp only [gwStep]
          cases hE : (gwEnter expected v fresh).1 with
          | running w ch =>
              have := gwEnter_chan expected v fresh w ch hE
              simp [gwChanOk, hE, this]
          | waiting => simp [gwChanOk, hE]
          | terminated => simp [gwChanOk, hE]
      | workExit cur => simp [gwStep, gwChanOk]
      | externalStop => simp [gwStep, gwChanOk]
  | running b c =>
      cases e with
      | valueChange v =>
          simp only [gwStep]
          cases hE : (gwEnter expected v fresh).1 with
          | running w ch =>
              have := gwEnter_chan expected v fresh w ch hE
              simp [gwChanOk, hE, this]
          | waiting => simp [gwChanOk, hE]
          | terminated => simp [gwChanOk, hE]
      | workExit cur =>
          simp only [gwStep]
          cases hE : (gwEnter expected cur fresh).1 with
          | running w ch =>
              have := gwEnter_chan expected cur fresh w ch hE
              simp [gwChanOk, hE, this]
          | waiting => simp [gwChanOk, hE]
          | terminated => simp [gwChanOk, hE]
      | externalStop => simp [gwStep, gwChanOk]

/-! ## Claim theorems -/

/-- C2, as stated, is false: with no expected identity configured (so the
new identity passes the guard), an identity change observed while the
protected work is running does cancel the in-flight work, and the next
iteration runs work bound to the new identity on a new channel — the
running work neither survives nor keeps its originally bound value. -/
theorem gw_running_passing_change_cex :
    (gwStep none (GwState.running ⟨5⟩ 0) 1
        (GwEvent.valueChange ⟨7⟩)).workCancelled = true ∧
    (gwStep none (GwState.running ⟨5⟩ 0) 1
        (GwEvent.valueChange ⟨7⟩)).next = GwState.running ⟨7⟩ 1 ∧
    (gwStep none (GwState.running ⟨5⟩ 0) 1
        (GwEvent.valueChange ⟨7⟩)).next ≠ GwState.running ⟨5⟩ 0 := by
  decide

/-- C2 (amended): in the gateway restart loop, if the observed identity
changes while the protected work is Running and the new identity passes
the guard (or no expected identity is configured), the running work is
cancelled and the loop immediately re-enters Running with work bound to
the new identity value and a freshly created stop channel — restart is the
propagation mechanism for a passing identity change. -/
theorem gw_running_passing_change_restarts (expected : Option Nat)
    (old : PubkeySigner) (ch fresh : Nat) (v : PubkeySigner)
    (h : guardPasses expected v = true) :
    gwStep expected (GwState.running old ch) fresh (GwEvent.valueChange v) =
      ⟨GwState.running v fresh, fresh + 1, [], true, true, false⟩ := by
  simp [gwStep, gwEnter, h]

/-- Witness for C2 (amended) at a concrete input. -/
theorem gw_running_passing_change_restarts_witness :
    gwStep none (GwState.running ⟨5⟩ 0) 1 (GwEvent.valueChange ⟨7⟩) =
      ⟨GwState.running ⟨7⟩ 1, 2, [], true, true, false⟩ :=
  gw_running_passing_change_restarts none ⟨5⟩ 0 1 ⟨7⟩ (by decide)

/-- C3: with a configured expected identity, an identity change observed
while Running whose pubkey differs from it cancels the running work (the
work future is dropped and its stop channel closed), emits the two
rejection warnings, and parks the loop in Waiting. -/
theorem gw_running_failing_change_cancels (eid : Nat) (old : PubkeySigner)
    (ch fresh : Nat) (v : PubkeySigner) (h : v.pubkey ≠ eid) :
    gwStep (some eid) (GwState.running old ch) fresh (GwEvent.valueChange v) =
      ⟨GwState.waiting, fresh + 1,
        [GwLog.warnUnexpectedIdentity v.pubkey,
         GwLog.warnWaitingForIdentity v.pubkey],
        true, true, false⟩ := by
  simp [gwStep, gwEnter, guardPasses, h]

/-- Witness for C3 at a concrete input. -/
theorem gw_running_failing_change_cancels_witness :
    gwStep (some 1) (GwState.running ⟨1⟩ 0) 1 (GwEvent.valueChange ⟨2⟩) =
      ⟨GwState.waiting, 2,
        [GwLog.warnUnexpectedIdentity 2, GwLog.warnWaitingForIdentity 2],
        true, true, false⟩ :=
  gw_running_failing_change_cancels 1 ⟨1⟩ 0 1 ⟨2⟩ (by decide)

/-- C4: an observed identity whose pubkey differs from the configured
expected identity is rejected by the guard: entering the loop body parks
in Waiting on the never-resolving placeholder, logging the rejection
exactly once (the two warning lines); the placeholder never resolves (no
natural work exit occurs from Waiting); and along every run starting from
a guard-respecting state the loop is never Running under an identity that
fails the guard, so the gateway server is never started under it. -/
theorem gw_guard_reject_parks (eid : Nat) (v : PubkeySigner) (fresh : Nat)
    (h : v.pubkey ≠ eid) :
    gwEnter (some eid) v fresh =
      (GwState.waiting,
        [GwLog.warnUnexpectedIdentity v.pubkey,
         GwLog.warnWaitingForIdentity v.pubkey]) ∧
    (∀ n cur, gwStep (some eid) GwState.waiting n (GwEvent.workExit cur) =
        ⟨GwState.waiting, n, [], false, false, false⟩) ∧
    (∀ s n events, gwGuardOk (some eid) s = true →
        gwGuardOk (some eid) (gwRun (some eid) s n events).1 = true) ∧
    (∀ initial, gwGuardOk (some eid) (gwInit (some eid) initial).1 = true) := by
  refine ⟨?_, ?_, ?_, ?_⟩
  · simp [gwEnter, guardPasses, h]
  · intro n cur
    rfl
  · intro s n events hs
    exact gwRun_guardOk (some eid) events s n hs
  · intro initial
    exact gwEnter_guardOk (some eid) initial 0

/-- Witness for C4 at a concrete input. -/
theorem gw_guard_reject_parks_witness :
    gwEnter (some 1) ⟨2⟩ 0 =
      (GwState.waiting,
        [GwLog.warnUnexpectedIdentity 2, GwLog.warnWaitingForIdentity 2]) :=
  (gw_guard_reject_parks 1 ⟨2⟩ 0 (by decide)).1

/-- C5: an observed identity passing the guard makes the loop body enter
Running with the gateway server bound to that identity and to the channel
created this iteration (and with no expected identity configured, every
identity does); moreover every select resolution whose next state is
Running binds it to a guard-passing identity and to the channel numbered
by the pre-step counter while bumping the counter, and the freshness
invariant (a running channel number is below the creation counter) is
preserved by every step — each entry into Running uses a freshly created
stop channel. -/
theorem gw_guard_pass_runs_fresh (expected : Option Nat) (v : PubkeySigner)
    (fresh : Nat) (h : guardPasses expected v = true) :
    gwEnter expected v fresh = (GwState.running v fresh, []) ∧
    (∀ w n, gwEnter none w n = (GwState.running w n, [])) ∧
    (∀ s n e w ch, (gwStep expected s n e).next = GwState.running w ch →
        ch = n ∧ (gwStep expected s n e).newFresh = n + 1 ∧
          guardPasses expected w = true) ∧
    (∀ s n e, gwChanOk s n = true →
        gwChanOk (gwStep expected s n e).next
          (gwStep expected s n e).newFresh = true) := by
  refine ⟨by simp [gwEnter, h], fun w n => by simp [gwEnter, guardPasses],
    ?_, fun s n e hs => gwStep_chanOk expected s n e hs⟩
  intro s n e w ch hnext
  cases s with
  | terminated => cases e <;> simp [gwStep] at hnext
  | waiting =>
      cases e with
      | valueChange v2 =>
          simp only [gwStep] at hnext ⊢
          have := gwEnter_running expected v2 n w ch hnext
          exact ⟨this.2.1, trivial, this.2.2⟩
      | workExit cur => simp [gwStep] at hnext
      | externalStop => simp [gwStep] at hnext
  | running b c =>
      cases e with
      | valueChange v2 =>
          simp only [gwStep] at hnext ⊢
          have := gwEnter_running expected v2 n w ch hnext
          exact ⟨this.2.1, trivial, this.2.2⟩
      | workExit cur =>
          simp only [gwStep] at hnext ⊢
          have := gwEnter_running expected cur n w ch hnext
          exact ⟨this.2.1, trivial, this.2.2⟩
      | externalStop => simp [gwStep] at hnext

/-- Witness for C5 at a concrete input. -/
theorem gw_guard_pass_runs_fresh_witness :
    gwEnter (some 1) ⟨1⟩ 4 = (GwState.running ⟨1⟩ 4, []) :=
  (gw_guard_pass_runs_fresh (some 1) ⟨1⟩ 4 (by decide)).1

/-- C6: when the external stop resolves, from any non-terminated state the
loop closes the iteration's stop channel (cancelling any running work),
returns `Ok(())`, and enters the absorbing Terminated state, from which no
event produces a transition, a log, a work start, or a further return. -/
theorem gw_external_stop_terminates (expected : Option Nat) (s : GwState)
    (fresh : Nat) (h : s ≠ GwState.terminated) :
    ((gwStep expected s fresh GwEvent.externalStop).next = GwState.terminated ∧
      (gwStep expected s fresh GwEvent.externalStop).returnedOk = true ∧
      (gwStep expected s fresh GwEvent.externalStop).stopChanClosed = true ∧
      (gwStep expected s fresh GwEvent.externalStop).logs = []) ∧
    (∀ v ch, s = GwState.running v ch →
      (gwStep expected s fresh GwEvent.externalStop).workCancelled = true) ∧
    (∀ n e, gwStep expected GwState.terminated n e =
      ⟨GwState.terminated, n, [], false, false, false⟩) := by
  refine ⟨?_, ?_, ?_⟩
  · cases s with
    | running b c => exact ⟨rfl, rfl, rfl, rfl⟩
    | waiting => exact ⟨rfl, rfl, rfl, rfl⟩
    | terminated => exact absurd rfl h
  · intro v ch hs
    subst hs
    rfl
  · intro n e
    cases e <;> rfl

/-- Witness for C6 at a concrete input. -/
theorem gw_external_stop_terminates_witness :
    (gwStep (some 1) (GwState.running ⟨1⟩ 0) 1 GwEvent.externalStop).next =
      GwState.terminated :=
  (gw_external_stop_terminates (some 1) (GwState.running ⟨1⟩ 0) 1
    (by decide)).1.1

/-- C7: when the protected work exits naturally while Running, the loop
logs `highway-gateway listener stopped` and falls back to the Idle
evaluation `gwEnter` on whatever identity is current at that moment,
proceeding from there (with the next fresh channel number). -/
theorem gw_natural_exit_reenters (expected : Option Nat) (old : PubkeySigner)
    (ch fresh : Nat) (cur : PubkeySigner) :
    gwStep expected (GwState.running old ch) fresh (GwEvent.workExit cur) =
      ⟨(gwEnter expected cur fresh).1, fresh + 1,
        GwLog.warnListenerStopped :: (gwEnter expected cur fresh).2,
        false, true, false⟩ := rfl

/-- C1, as stated, is false: here is a run whose drained task `geyser`
finished with a failure, yet the completion phase of `run_highway` returns
the success result `Ok(())`. -/
theorem run_highway_failure_returns_ok_cex :
    Option.map Prod.snd (run_highway_finish
      [⟨"SIGINT", TaskMode.cancelable, Except.ok ()⟩,
       ⟨"geyser", TaskMode.cooperative, Except.error "geyser failed"⟩]) =
      some (Except.ok ()) ∧
    List.any
      [STask.mk "SIGINT" TaskMode.cancelable (Except.ok ()),
       STask.mk "geyser" TaskMode.cooperative (Except.error "geyser failed")]
      taskFailed = true := by
  constructor
  · rfl
  · rfl

/-- C1 (amended): `run_highway`'s completion phase returns `Ok(())` for
every non-empty task group regardless of how the triggering or drained
tasks finished — failures surface only as `tracing::error!` log lines, one
per failed drained task — and it aborts (`.expect`) only on an empty
group. -/
theorem run_highway_nonempty_returns_ok (t : STask) (rest : List STask) :
    Option.map Prod.snd (run_highway_finish (t :: rest)) =
      some (Except.ok ()) ∧
    (run_highway_finish (t :: rest)).isSome = true ∧
    run_highway_finish [] = none := by
  refine ⟨?_, ?_, rfl⟩
  · simp [run_highway_finish, wait_one]
  · simp [run_highway_finish, wait_one]

/-- C8: `wait_one` fails exactly when the group holds zero tasks; on a
non-empty group it resolves with the triggering task's name and result —
whatever its mode and whether it succeeded or failed — together with the
`(name, result)` pairs of all remaining tasks (one per remaining task, in
order), the remaining Cooperative tasks being signalled to stop. -/
theorem wait_one_spec (tasks : List STask) :
    (wait_one tasks = none ↔ tasks = []) ∧
    (∀ t rest, tasks = t :: rest →
      wait_one tasks =
        some ((t.name, t.result),
          rest.map (fun r => (r.name, r.result)),
          (rest.filter (fun r => r.mode == TaskMode.cooperative)).map
            STask.name) ∧
      (rest.map (fun r => (r.name, r.result))).length = rest.length) := by
  constructor
  · cases tasks with
    | nil => simp [wait_one]
    | cons t rest => simp [wait_one]
  · intro t rest htasks
    subst htasks
    exact ⟨rfl, by simp⟩

/-- Witness for C8 at a concrete input. -/
theorem wait_one_spec_witness :
    wait_one
      [⟨"a", TaskMode.cancelable, Except.error "boom"⟩,
       ⟨"b", TaskMode.cooperative, Except.ok ()⟩,
       ⟨"c", TaskMode.cancelable, Except.ok ()⟩] =
      some (("a", Except.error "boom"),
        [("b", Except.ok ()), ("c", Except.ok ())], ["b"]) :=
  ((wait_one_spec
      [⟨"a", TaskMode.cancelable, Except.error "boom"⟩,
       ⟨"b", TaskMode.cooperative, Except.ok ()⟩,
       ⟨"c", TaskMode.cancelable, Except.ok ()⟩]).2
    ⟨"a", TaskMode.cancelable, Except.error "boom"⟩
    [⟨"b", TaskMode.cooperative, Except.ok ()⟩,
     ⟨"c", TaskMode.cancelable, Except.ok ()⟩] rfl).1

/-- C9: with the preliminary read and the set call both succeeding, the
admin `SetIdentity` command fails exactly when the identity read back
equals the identity read before the call — reporting
`Failed to update identity` even though the set call itself succeeded —
and reports the new identity otherwise. -/
theorem admin_set_identity_verification (p a : Nat) :
    (a = p →
      run_cmd_admin_set_identity (Except.ok p) (Except.ok ()) (Except.ok a) =
        Except.error ("Failed to update identity: " ++ toString a ++
          " (new) != " ++ toString p ++ " (old)")) ∧
    (a ≠ p →
      run_cmd_admin_set_identity (Except.ok p) (Except.ok ()) (Except.ok a) =
        Except.ok a) := by
  constructor
  · intro hep
    simp [run_cmd_admin_set_identity, hep]
  · intro hne
    simp [run_cmd_admin_set_identity, hne]

/-- Witness for C9 at a concrete input: rotating to the identity already
in use is reported as a failure. -/
theorem admin_set_identity_verification_witness :
    run_cmd_admin_set_identity (Except.ok 3) (Except.ok ()) (Except.ok 3) =
      Except.error ("Failed to update identity: " ++ toString 3 ++
        " (new) != " ++ toString 3 ++ " (old)") :=
  (admin_set_identity_verification 3 3).1 rfl

/-- C10: with `--check` given and the configuration loading and validating
successfully, `main2` returns `Ok(())` immediately, performing no action:
no tracing setup, no admin RPC command, and no supervised service run. -/
theorem main2_check_mode (cmd : Option ArgsCommands) (c : ConfigHighway)
    (tracingResult adminResult highwayResult : Except String Unit) :
    main2 ⟨true, cmd⟩ (Except.ok c) tracingResult adminResult highwayResult =
      ([], Except.ok ()) := rfl

end Highway
